import Mathlib

/-!
Verification development for the XFEL flood-warning watchdog (src/main.py).

The whole program is one class, `WaterAlarm`, plus module-level bootstrap.
We shallowly embed its escalation state machine:

  * `Cfg` holds the constructor arguments that the core logic reads.
  * `AlarmState` holds the mutable attributes of the `WaterAlarm` object
    that the polling loop reads and writes (`missing_responses`, `water`,
    `times_water_detected`, `missing_loops`, `awaiting_message`) together
    with the relay-board outputs, modeled as a function from channel
    number to on/off.
  * Side effects at the gateway boundary (sending an SMS, console prints,
    the shutdown calls) are collected into a trace of `Ev` values.
    Gateway calls are modeled on their success path: in the source a
    failing `sendSms`/`listStoredSms` is caught, logged, and leaves the
    escalation counters exactly as a successful send / an empty drain
    would, so the state dynamics below are unaffected.
  * Python integers are embedded as `Int`.  The source compares counters
    against `threshold / 2` (true division); for integers `x >= t / 2`
    and `x < t / 2` are equivalent to `2 * x >= t` and `2 * x < t`, which
    is how the guards are written here.
-/

/-- An inbound SMS as the core reads it: sender number and body text
(`message.number`, `message.text` on the gsmmodem SMS object). -/
structure Msg where
  number : String
  text : String
deriving DecidableEq

/-- The `WaterAlarm.__init__` parameters that the state machine reads.
Hardware-only parameters (board address, baudrate) are out of scope. -/
structure Cfg where
  phone_number : String
  request_message : String
  water_message : String
  no_water_message : String
  alert_numbers : List String
  red_relay : Nat
  amber_relay : Nat
  green_relay : Nat
  disconnect_time : Int
  water_time : Int
  log : Bool

/-- The mutable attributes of the `WaterAlarm` object, plus the relay
board outputs.  `missing_loops` and `awaiting_message` are first
assigned by `request_status`, which the main loop runs at tick 0 before
anything reads them; they are given start values 0/false here.
The relay outputs are all off after the start-up lamp test. -/
structure AlarmState where
  missing_responses : Int
  water : Bool
  times_water_detected : Int
  missing_loops : Int
  awaiting_message : Bool
  relays : Nat → Bool

/-- Externally visible effects: SMS sends, console prints, and the two
shutdown calls of the cleanup block. -/
inductive Ev where
  | sendSms (number message : String)
  | print (line : String)
  | allOff
  | closeModem
deriving DecidableEq

/-- `self.relay_board.on(n)`. -/
def relayOn (r : Nat → Bool) (n : Nat) : Nat → Bool :=
  fun m => if m = n then true else r m

/-- `self.relay_board.off(n)`. -/
def relayOff (r : Nat → Bool) (n : Nat) : Nat → Bool :=
  fun m => if m = n then false else r m

/-- Object state at the end of `__init__`: counters zero, no water,
all relays off after the lamp test. -/
def initState : AlarmState :=
  { missing_responses := 0
    water := false
    times_water_detected := 0
    missing_loops := 0
    awaiting_message := false
    relays := fun _ => false }

/-- Text of the "water" alert (src/main.py line 183). -/
def waterAlertText (t : Int) : String :=
  "Water has been detected at XFEL for the past " ++ toString (t * 2) ++ "m!"

/-- Text of the "disconnect" alert (line 185). -/
def disconnectAlertText (r : Int) : String :=
  "The connection to the flood monitoring system at XFEL has been lost for "
    ++ toString (r * 2) ++ "m."

/-- Text of the "restored" alert (line 187). -/
def restoredAlertText : String :=
  "The connection to the flood monitoring system has been restored."

/-- Text of the "removed" alert (line 189). -/
def removedAlertText : String :=
  "The water is no longer detected."

/-- `WaterAlarm.alert_humans` (lines 179-191): one SMS per operator
number; the per-kind dispatch is hoisted out of the loop since the kind
is fixed for the whole loop.  The source raises ValueError on an
unknown kind; the core only ever calls it with the four kinds below,
so the unknown branch produces no sends here. -/
def alert_humans (cfg : Cfg) (s : AlarmState) (event : String) : List Ev :=
  if event = "water" then
    cfg.alert_numbers.map fun n => Ev.sendSms n (waterAlertText s.times_water_detected)
  else if event = "disconnect" then
    cfg.alert_numbers.map fun n => Ev.sendSms n (disconnectAlertText s.missing_responses)
  else if event = "restored" then
    cfg.alert_numbers.map fun n => Ev.sendSms n restoredAlertText
  else if event = "removed" then
    cfg.alert_numbers.map fun n => Ev.sendSms n removedAlertText
  else []

/-- `WaterAlarm.send_message` (lines 193-197), success path; a raising
`sendSms` is caught and logged and mutates no escalation state. -/
def send_message (number message : String) : List Ev :=
  [Ev.sendSms number message]

/-- `WaterAlarm.light` (lines 162-177).  Note the asymmetry: the "red"
branch forces the amber relay off, but the "amber" branch does not
touch the red relay (the off call is commented out in the source). -/
def light (cfg : Cfg) (s : AlarmState) (c : String) : AlarmState × List Ev :=
  if c = "red" then
    ({ s with relays := relayOn (relayOff (relayOff s.relays cfg.amber_relay) cfg.green_relay) cfg.red_relay }, [])
  else if c = "amber" then
    ({ s with relays := relayOn (relayOff s.relays cfg.green_relay) cfg.amber_relay }, [])
  else if c = "green" then
    ({ s with relays := relayOn (relayOff (relayOff s.relays cfg.amber_relay) cfg.red_relay) cfg.green_relay }, [])
  else (s, [Ev.print ("Unknown light " ++ c ++ ".")])

/-- `WaterAlarm.update_status` (lines 132-147): the three-way water
state machine on `times_water_detected`.  The guards `0 < t < W/2` and
`t >= W/2` are written `2*t < W` and `2*t >= W`. -/
def update_status (cfg : Cfg) (s : AlarmState) : AlarmState × List Ev :=
  if s.times_water_detected = 0 then
    ( { (light cfg s "green").1 with water := false },
      (light cfg s "green").2
        ++ (if s.water then alert_humans cfg s "removed" else [])
        ++ (if cfg.log then
              [Ev.print ("Received '" ++ cfg.no_water_message ++ "', turning green light on.")]
            else []) )
  else if 0 < s.times_water_detected ∧ 2 * s.times_water_detected < cfg.water_time then
    ( s,
      [Ev.print ("Water has been detected for " ++ toString (s.times_water_detected * 2)
          ++ "m. Will alert others at " ++ toString cfg.water_time ++ "m.")] )
  else if 2 * s.times_water_detected ≥ cfg.water_time then
    ( { (light cfg s "red").1 with water := true },
      (light cfg s "red").2
        ++ alert_humans cfg s "water"
        ++ [Ev.print ("Water has been detected for the past "
              ++ toString (s.times_water_detected * 2) ++ "m, turning red light on.")] )
  else (s, [])

/-- `WaterAlarm.parse_message` (lines 113-130).  The "restored" alert
fires when `missing_responses >= disconnect_time / 2` held before the
reset; an unknown sender only gets logged. -/
def parse_message (cfg : Cfg) (s : AlarmState) (m : Msg) : AlarmState × List Ev :=
  if m.number = cfg.phone_number then
    let restored : List Ev :=
      if 2 * s.missing_responses ≥ cfg.disconnect_time then alert_humans cfg s "restored" else []
    let s1 : AlarmState :=
      { s with missing_loops := 0, missing_responses := 0, awaiting_message := false }
    if m.text = cfg.water_message then
      ( (update_status cfg { s1 with times_water_detected := s1.times_water_detected + 1 }).1,
        restored ++ (update_status cfg { s1 with times_water_detected := s1.times_water_detected + 1 }).2 )
    else if m.text = cfg.no_water_message then
      ( (update_status cfg { s1 with times_water_detected := 0 }).1,
        restored ++ (update_status cfg { s1 with times_water_detected := 0 }).2 )
    else
      (s1, restored ++ [Ev.print ("Unknown message '" ++ m.text ++ "'")])
  else
    (s, [Ev.print ("Unknown number " ++ m.number)])

/-- The `for message in messages` loop of `check_for_answer`, in FIFO
order. -/
def parse_all (cfg : Cfg) (s : AlarmState) : List Msg → AlarmState × List Ev
  | [] => (s, [])
  | m :: ms =>
    ( (parse_all cfg (parse_message cfg s m).1 ms).1,
      (parse_message cfg s m).2 ++ (parse_all cfg (parse_message cfg s m).1 ms).2 )

/-- `WaterAlarm.check_for_answer` (lines 101-111), taking the drained
inbox as input (a drain failure is caught and treated as an empty
drain).  `missing_loops` is incremented exactly when the drain was
empty while a reply was awaited. -/
def check_for_answer (cfg : Cfg) (s : AlarmState) (messages : List Msg) : AlarmState × List Ev :=
  let s1 : AlarmState :=
    if messages.length = 0 ∧ s.awaiting_message = true then
      { s with missing_loops := s.missing_loops + 1 }
    else s
  parse_all cfg s1 messages

/-- `WaterAlarm.request_status` (lines 93-99). -/
def request_status (cfg : Cfg) (s : AlarmState) : AlarmState × List Ev :=
  ( { s with missing_loops := 0, awaiting_message := true },
    send_message cfg.phone_number cfg.request_message
      ++ if cfg.log then [Ev.print "Sent request."] else [] )

/-- One iteration of the inner `for i in range(12)` loop of `mainloop`
(lines 203-210): a request at tick 0, then sleep (time is not
modeled), then a reply check on whatever the drain returned. -/
def tick (cfg : Cfg) (s : AlarmState) (i : Nat) (drained : List Msg) : AlarmState × List Ev :=
  let p : AlarmState × List Ev := if i = 0 then request_status cfg s else (s, [])
  ( (check_for_answer cfg p.1 drained).1,
    p.2 ++ (check_for_answer cfg p.1 drained).2 )

/-- Ticks `0, 1, ..., k-1` of one outer cycle; `f i` is the drain
result at tick `i`. -/
def run_ticks (cfg : Cfg) (s : AlarmState) (f : Nat → List Msg) : Nat → AlarmState × List Ev
  | 0 => (s, [])
  | k + 1 =>
    ( (tick cfg (run_ticks cfg s f k).1 k (f k)).1,
      (run_ticks cfg s f k).2 ++ (tick cfg (run_ticks cfg s f k).1 k (f k)).2 )

/-- The end-of-cycle checks of `mainloop` (lines 211-217): bump
`missing_responses` after a fully silent cycle, then the disconnect
escalation (`missing_responses >= disconnect_time / 2`, written
`2 * missing_responses >= disconnect_time`). -/
def cycle_end (cfg : Cfg) (s : AlarmState) : AlarmState × List Ev :=
  let s1 : AlarmState :=
    if s.missing_loops = 12 then
      { s with missing_responses := s.missing_responses + 1 }
    else s
  let e1 : List Ev :=
    if s.missing_loops = 12 then
      [Ev.print ("No answer received in the last " ++ toString (s1.missing_responses * 2) ++ "m!")]
    else []
  if 2 * s1.missing_responses ≥ cfg.disconnect_time then
    ( (light cfg s1 "amber").1,
      e1 ++ [Ev.print ("No answer received in the last " ++ toString (s1.missing_responses * 2)
              ++ " minutes, turning amber light on.")]
         ++ (light cfg s1 "amber").2
         ++ alert_humans cfg (light cfg s1 "amber").1 "disconnect" )
  else (s1, e1)

/-- One outer cycle of `mainloop`: 12 ticks then the end-of-cycle
checks. -/
def outer_cycle (cfg : Cfg) (s : AlarmState) (f : Nat → List Msg) : AlarmState × List Ev :=
  ( (cycle_end cfg (run_ticks cfg s f 12).1).1,
    (run_ticks cfg s f 12).2 ++ (cycle_end cfg (run_ticks cfg s f 12).1).2 )

/-- A run of the `while True` body over a list of outer-cycle inputs. -/
def run_cycles (cfg : Cfg) (s : AlarmState) : List (Nat → List Msg) → AlarmState × List Ev
  | [] => (s, [])
  | f :: fs =>
    ( (run_cycles cfg (outer_cycle cfg s f).1 fs).1,
      (outer_cycle cfg s f).2 ++ (run_cycles cfg (outer_cycle cfg s f).1 fs).2 )

/-- The `finally` block of `mainloop` (lines 218-220):
`self.relay_board.all_off()` then `self.modem.close()`, straight-line
with no exception handling inside the block.  The booleans say whether
each call raises; the result is the list of calls that completed and
whether an exception escaped the cleanup. -/
def finally_block (allOffRaises closeRaises : Bool) : List Ev × Bool :=
  if allOffRaises then ([], true)
  else if closeRaises then ([Ev.allOff], true)
  else ([Ev.allOff, Ev.closeModem], false)

/-- `WaterAlarm.mainloop` as a terminated run: the `while True` body
never returns normally, so an exit happens via an unhandled fault after
some number of completed cycles, and the `finally` block runs on that
exit path, its events appended after the body trace. -/
def mainloop_run (cfg : Cfg) (s : AlarmState) (completed : List (Nat → List Msg))
    (allOffRaises closeRaises : Bool) : List Ev × Bool :=
  ( (run_cycles cfg s completed).2 ++ (finally_block allOffRaises closeRaises).1,
    (finally_block allOffRaises closeRaises).2 )

/-- The threshold validation of `WaterAlarm.__init__` (lines 63-66),
exactly as written: both guards test `disconnect_time`; `water_time`
is never checked, although the first error message names it. -/
def validate_thresholds (disconnect_time water_time : Int) : Except String Unit :=
  if disconnect_time % 2 ≠ 0 then
    Except.error "'water_time' must be a multiple of 2!"
  else if disconnect_time % 2 ≠ 0 then
    Except.error "'disconnect_time' must be a multiple of 2!"
  else Except.ok ()

/-- The names bound at module level in src/main.py: the imports (lines
1-7), the two flags (lines 11-12), the class (line 14), and the
bootstrap assignments (lines 224-227).  No binding named "modem"
exists at module level (and none among Python builtins). -/
def module_globals : List String :=
  ["seeed_relay_v1", "log", "gsmmodem", "dotenv", "time", "json", "os",
   "logging", "debug", "WaterAlarm", "phone_number", "alert_phone_numbers",
   "wateralarm"]

/-- The local names in scope inside `WaterAlarm.exception_handler`
(lines 149-160): its parameters.  The bare name `modem` on line 158 is
not among them (the attribute lives on `self`). -/
def handler_locals : List String := ["self", "e", "task"]

/-- Python name resolution for a bare name inside `exception_handler`:
local scope, then module globals (there is no relevant builtin). An
unresolved name raises NameError. -/
def name_resolves (n : String) : Bool :=
  handler_locals.contains n || module_globals.contains n

/-- The signal-strength block of `exception_handler` (lines 156-160):
under `self.log`, a `try` that prints the signal strength read through
the bare name `modem`, with a nested `except` that prints a fallback
line when the read raises. -/
def signal_strength_log (logEnabled : Bool) (signalStrength : Int) : List Ev :=
  if logEnabled then
    if name_resolves "modem" then
      [Ev.print ("Signal strength: " ++ toString signalStrength ++ " / 100")]
    else
      [Ev.print "Unable to get signal strength."]
  else []

/-- A message carrying the configured water-positive reply from the
configured sensor number. -/
def posMsg (cfg : Cfg) : Msg :=
  { number := cfg.phone_number, text := cfg.water_message }

/-- `k` consecutive water-positive replies from the sensor number,
parsed from the freshly initialized state. -/
def run_pos (cfg : Cfg) : Nat → AlarmState × List Ev
  | 0 => (initState, [])
  | k + 1 =>
    ( (parse_message cfg (run_pos cfg k).1 (posMsg cfg)).1,
      (run_pos cfg k).2 ++ (parse_message cfg (run_pos cfg k).1 (posMsg cfg)).2 )

/-- Whether an event is an outbound SMS. -/
def isSend : Ev → Bool
  | Ev.sendSms _ _ => true
  | _ => false

/-- States of the escalation object at outer-cycle boundaries of the
main loop. -/
inductive Boundary (cfg : Cfg) : AlarmState → Prop where
  | init : Boundary cfg initState
  | cycle (s : AlarmState) (f : Nat → List Msg) :
      Boundary cfg s → Boundary cfg (outer_cycle cfg s f).1

/-- States reachable in the main loop: some whole number of outer
cycles followed by at most 12 further ticks. -/
def ReachableMain (cfg : Cfg) (t : AlarmState) : Prop :=
  ∃ (s : AlarmState) (f : Nat → List Msg) (k : Nat),
    Boundary cfg s ∧ k ≤ 12 ∧ t = (run_ticks cfg s f k).1

/-- The configuration built by the bootstrap code (lines 227-241),
with one operator number and `log_everything` off to keep concrete
traces small; `water_time` is 4 as in the source bootstrap. -/
def cfgA : Cfg :=
  { phone_number := "T"
    request_message := "Water?"
    water_message := "1"
    no_water_message := "0"
    alert_numbers := ["A"]
    red_relay := 1
    amber_relay := 2
    green_relay := 3
    disconnect_time := 10
    water_time := 4
    log := false }

/-- Like `cfgA` with the smallest even disconnect threshold, so the
disconnect escalation fires after a single silent cycle. -/
def cfgB : Cfg :=
  { cfgA with disconnect_time := 2, water_time := 2 }

/-- A state whose amber relay (channel 2 in `cfgA`) is lit, as after a
disconnect indication. -/
def sAmberOn : AlarmState :=
  { initState with relays := fun n => n == 2 }

@[simp] lemma light_missing_loops (cfg : Cfg) (s : AlarmState) (c : String) :
    (light cfg s c).1.missing_loops = s.missing_loops := by
  unfold light; split_ifs <;> rfl

@[simp] lemma light_missing_responses (cfg : Cfg) (s : AlarmState) (c : String) :
    (light cfg s c).1.missing_responses = s.missing_responses := by
  unfold light; split_ifs <;> rfl

@[simp] lemma light_awaiting (cfg : Cfg) (s : AlarmState) (c : String) :
    (light cfg s c).1.awaiting_message = s.awaiting_message := by
  unfold light; split_ifs <;> rfl

@[simp] lemma light_times (cfg : Cfg) (s : AlarmState) (c : String) :
    (light cfg s c).1.times_water_detected = s.times_water_detected := by
  unfold light; split_ifs <;> rfl

@[simp] lemma light_water (cfg : Cfg) (s : AlarmState) (c : String) :
    (light cfg s c).1.water = s.water := by
  unfold light; split_ifs <;> rfl

@[simp] lemma update_status_missing_loops (cfg : Cfg) (s : AlarmState) :
    (update_status cfg s).1.missing_loops = s.missing_loops := by
  unfold update_status; split_ifs <;> simp

@[simp] lemma update_status_missing_responses (cfg : Cfg) (s : AlarmState) :
    (update_status cfg s).1.missing_responses = s.missing_responses := by
  unfold update_status; split_ifs <;> simp

@[simp] lemma update_status_awaiting (cfg : Cfg) (s : AlarmState) :
    (update_status cfg s).1.awaiting_message = s.awaiting_message := by
  unfold update_status; split_ifs <;> simp

/-- A reply from an unrecognized sender is only logged (lines 129-130). -/
lemma parse_unknown (cfg : Cfg) (s : AlarmState) (m : Msg)
    (h : m.number ≠ cfg.phone_number) :
    parse_message cfg s m = (s, [Ev.print ("Unknown number " ++ m.number)]) := by
  unfold parse_message; rw [if_neg h]

/-- A reply from the sensor number always resets `missing_loops` (line 118). -/
lemma parse_known_missing_loops (cfg : Cfg) (s : AlarmState) (m : Msg)
    (h : m.number = cfg.phone_number) :
    (parse_message cfg s m).1.missing_loops = 0 := by
  unfold parse_message
  rw [if_pos h]
  dsimp only
  split_ifs <;> simp

/-- After folding any batch of replies, `missing_loops` is either
untouched or has been reset to 0. -/
lemma parse_all_missing_loops (cfg : Cfg) :
    ∀ (msgs : List Msg) (s : AlarmState),
      (parse_all cfg s msgs).1.missing_loops = s.missing_loops
    ∨ (parse_all cfg s msgs).1.missing_loops = 0 := by
  intro msgs
  induction msgs with
  | nil => intro s; exact Or.inl rfl
  | cons m ms ih =>
    intro s
    unfold parse_all
    by_cases h : m.number = cfg.phone_number
    · rcases ih (parse_message cfg s m).1 with h2 | h2
      · rw [h2, parse_known_missing_loops cfg s m h]; exact Or.inr rfl
      · exact Or.inr h2
    · rw [parse_unknown cfg s m h]
      exact ih s

/-- A batch consisting only of unrecognized senders leaves the whole
state untouched. -/
lemma parse_all_unknown (cfg : Cfg) :
    ∀ (msgs : List Msg) (s : AlarmState),
      (∀ m ∈ msgs, m.number ≠ cfg.phone_number) →
      (parse_all cfg s msgs).1 = s := by
  intro msgs
  induction msgs with
  | nil => intro s _; rfl
  | cons m ms ih =>
    intro s hall
    unfold parse_all
    rw [parse_unknown cfg s m (hall m (List.mem_cons_self m ms))]
    exact ih s (fun x hx => hall x (List.mem_cons_of_mem m hx))

/-- C2: the startup threshold validation evaluated at an odd
`water_time` (5) with an even `disconnect_time` (10): the code accepts
the configuration and proceeds (both guards on lines 63-66 test
`disconnect_time`), although the docstring (line 45) and the first
error message require `water_time` to be a multiple of 2.  The claim
states a ValueError is raised; the code contradicts its own
documentation here. -/
theorem c2_odd_water_time_accepted :
    validate_thresholds 10 5 = Except.ok () := rfl

/-- C10: in the exception handler's signal-strength block the bare
name `modem` (line 158) resolves neither locally nor at module level,
so the read raises NameError, the nested handler catches it, and for
every signal-strength value the fallback line is printed instead. -/
theorem c10_signal_strength_fallback (strength : Int) :
    signal_strength_log true strength = [Ev.print "Unable to get signal strength."] := rfl

/-- C4 counterexample: with the bootstrap channel assignment
(red=1, amber=2, green=3) and the amber relay lit, setting the
indicator to WATER (`light "red"`) turns the amber relay off — the
claim says the WATER path leaves amber unchanged. -/
theorem c4_counterexample :
    sAmberOn.relays 2 = true ∧ (light cfgA sAmberOn "red").1.relays 2 = false := by
  decide

/-- C4 (amended): setting the indicator to WATER turns the red relay
on and both the green and the amber relay off (a previously lit amber
disconnect indication is cleared by the WATER path); setting
LOST_SIGNAL turns amber on and green off while leaving the red relay
unchanged. -/
theorem c4_light_effects (cfg : Cfg) (s : AlarmState)
    (hra : cfg.red_relay ≠ cfg.amber_relay)
    (hrg : cfg.red_relay ≠ cfg.green_relay)
    (hag : cfg.amber_relay ≠ cfg.green_relay) :
    ((light cfg s "red").1.relays cfg.red_relay = true
      ∧ (light cfg s "red").1.relays cfg.green_relay = false
      ∧ (light cfg s "red").1.relays cfg.amber_relay = false)
  ∧ ((light cfg s "amber").1.relays cfg.amber_relay = true
      ∧ (light cfg s "amber").1.relays cfg.green_relay = false
      ∧ (light cfg s "amber").1.relays cfg.red_relay = s.relays cfg.red_relay) := by
  have hr : light cfg s "red"
      = ({ s with relays := relayOn (relayOff (relayOff s.relays cfg.amber_relay) cfg.green_relay) cfg.red_relay }, []) := by
    unfold light; rw [if_pos rfl]
  have ha : light cfg s "amber"
      = ({ s with relays := relayOn (relayOff s.relays cfg.green_relay) cfg.amber_relay }, []) := by
    unfold light
    rw [if_neg (by decide : ¬("amber" : String) = "red"), if_pos rfl]
  rw [hr, ha]
  simp only [relayOn, relayOff]
  refine ⟨⟨?_, ?_, ?_⟩, ?_, ?_, ?_⟩ <;>
    simp [hra, hrg, hag, Ne.symm hra, Ne.symm hrg, Ne.symm hag]

/-- Witness for `c4_light_effects` at the bootstrap channel
assignment. -/
theorem c4_light_effects_witness :
    cfgA.red_relay ≠ cfgA.amber_relay
  ∧ (light cfgA initState "red").1.relays cfgA.red_relay = true
  ∧ (light cfgA initState "amber").1.relays cfgA.red_relay = initState.relays cfgA.red_relay :=
  ⟨by decide,
   (c4_light_effects cfgA initState (by decide) (by decide) (by decide)).1.1,
   (c4_light_effects cfgA initState (by decide) (by decide) (by decide)).2.2.2⟩

/-- C6: a reply whose sender differs from the configured sensor number
leaves the entire escalation state unchanged and only produces the
"Unknown number" log line. -/
theorem c6_unknown_sender_no_state_change (cfg : Cfg) (s : AlarmState) (m : Msg)
    (h : m.number ≠ cfg.phone_number) :
    (parse_message cfg s m).1 = s
  ∧ (parse_message cfg s m).2 = [Ev.print ("Unknown number " ++ m.number)] := by
  rw [parse_unknown cfg s m h]
  exact ⟨rfl, rfl⟩

/-- Witness for `c6_unknown_sender_no_state_change`: a reply from "X"
under the bootstrap configuration (sensor number "T"). -/
theorem c6_unknown_sender_no_state_change_witness :
    (parse_message cfgA initState (Msg.mk "X" "1")).1 = initState
  ∧ (parse_message cfgA initState (Msg.mk "X" "1")).2
      = [Ev.print ("Unknown number " ++ "X")] :=
  c6_unknown_sender_no_state_change cfgA initState (Msg.mk "X" "1") (by decide)

/-- C1 counterexample: water threshold 4 (2 positive replies), one
outer cycle in which the sensor sends the water-positive reply at
ticks 0, 1 and 2 and the streak is never reset.  The threshold is
crossed once (at the second reply), yet a "water" alert is dispatched
both at the second reply (streak 2) and again at the third reply
(streak 3) — the claim says the second dispatch must not happen. -/
theorem c1_counterexample :
    (run_cycles cfgA initState [fun i => if i ≤ 2 then [Msg.mk "T" "1"] else []]).2.count
        (Ev.sendSms "A" (waterAlertText 2)) = 1
  ∧ (run_cycles cfgA initState [fun i => if i ≤ 2 then [Msg.mk "T" "1"] else []]).2.count
        (Ev.sendSms "A" (waterAlertText 3)) = 1 := by
  decide

/-- C3 counterexample: disconnect threshold 2 (one silent cycle), two
consecutive outer cycles with no replies at all, so the disconnected
condition persists and is never cleared.  A "disconnect" alert is sent
at the end of cycle 1 (crossing) and again at the end of cycle 2 — the
claim says the second dispatch must not happen. -/
theorem c3_counterexample :
    (run_cycles cfgB initState [fun _ => [], fun _ => []]).2.count
        (Ev.sendSms "A" (disconnectAlertText 1)) = 1
  ∧ (run_cycles cfgB initState [fun _ => [], fun _ => []]).2.count
        (Ev.sendSms "A" (disconnectAlertText 2)) = 1 := by
  decide

/-- C8 counterexample: when `relay_board.all_off()` raises during the
cleanup block, the fault is not swallowed (it escapes the block) and
`modem.close()` is never executed — the claim says both cleanup
actions complete and cleanup faults are swallowed. -/
theorem c8_counterexample :
    Ev.closeModem ∉ (mainloop_run cfgA initState [] true false).1
  ∧ (mainloop_run cfgA initState [] true false).2 = true := by
  decide

/-- C8 (amended): on every exit path of the main loop the cleanup
block runs, with its events appended after the body's trace; it
attempts to turn all relays off and then close the modem, and both
complete when neither call raises — but a fault while turning the
relays off propagates out of the block (it is not swallowed) and
prevents the modem close. -/
theorem c8_cleanup_runs_not_best_effort (cfg : Cfg) (s : AlarmState)
    (completed : List (Nat → List Msg)) (aR cR : Bool) :
    (mainloop_run cfg s completed aR cR).1
        = (run_cycles cfg s completed).2 ++ (finally_block aR cR).1
  ∧ (aR = false → cR = false →
        Ev.allOff ∈ (mainloop_run cfg s completed aR cR).1
      ∧ Ev.closeModem ∈ (mainloop_run cfg s completed aR cR).1
      ∧ (mainloop_run cfg s completed aR cR).2 = false)
  ∧ (aR = true →
        Ev.closeModem ∉ (finally_block aR cR).1
      ∧ (mainloop_run cfg s completed aR cR).2 = true) := by
  refine ⟨rfl, ?_, ?_⟩
  · intro ha hc
    subst ha; subst hc
    refine ⟨?_, ?_, rfl⟩ <;>
      · apply List.mem_append_right
        simp [finally_block]
  · intro ha
    subst ha
    exact ⟨by simp [finally_block], rfl⟩

/-- Witness for `c8_cleanup_runs_not_best_effort`: a clean shutdown
(no cleanup faults) performs both cleanup actions. -/
theorem c8_cleanup_runs_not_best_effort_witness :
    Ev.allOff ∈ (mainloop_run cfgA initState [] false false).1
  ∧ Ev.closeModem ∈ (mainloop_run cfgA initState [] false false).1 :=
  ⟨((c8_cleanup_runs_not_best_effort cfgA initState [] false false).2.1 rfl rfl).1,
   ((c8_cleanup_runs_not_best_effort cfgA initState [] false false).2.1 rfl rfl).2.1⟩

/-- A state at the end of a fully silent outer cycle. -/
def sSilentCycle : AlarmState :=
  { initState with missing_loops := 12 }

/-- C3 (amended): whenever an outer cycle ends with
`missing_responses` at or above the disconnect threshold, the
indicator is set to LOST_SIGNAL (amber on) and a "disconnect" alert is
sent to every operator number — once per such cycle, so the alert
repeats every cycle while the disconnected condition persists, rather
than exactly once per crossing. -/
theorem c3_disconnect_alert_every_cycle (cfg : Cfg) (s : AlarmState)
    (h : 2 * (cycle_end cfg s).1.missing_responses ≥ cfg.disconnect_time) :
    (cycle_end cfg s).1.relays cfg.amber_relay = true
  ∧ ∀ n ∈ cfg.alert_numbers,
      Ev.sendSms n (disconnectAlertText (cycle_end cfg s).1.missing_responses)
        ∈ (cycle_end cfg s).2 := by
  have hl : ∀ s' : AlarmState, light cfg s' "amber"
      = ({ s' with relays := relayOn (relayOff s'.relays cfg.green_relay) cfg.amber_relay }, []) := by
    intro s'
    unfold light
    rw [if_neg (by decide : ¬("amber" : String) = "red"), if_pos rfl]
  have hda : ∀ X : AlarmState, alert_humans cfg X "disconnect"
      = cfg.alert_numbers.map (fun n => Ev.sendSms n (disconnectAlertText X.missing_responses)) := by
    intro X
    unfold alert_humans
    rw [if_neg (by decide : ¬("disconnect" : String) = "water"), if_pos rfl]
  simp only [cycle_end] at h ⊢
  by_cases hQ : 2 * (if s.missing_loops = 12
      then { s with missing_responses := s.missing_responses + 1 }
      else s).missing_responses ≥ cfg.disconnect_time
  · rw [if_pos hQ] at h ⊢
    rw [hl, hda]
    constructor
    · simp [relayOn]
    · intro n hn
      refine List.mem_append_right _ ?_
      exact List.mem_map_of_mem _ hn
  · rw [if_neg hQ] at h
    exact absurd h hQ

/-- Witness for `c3_disconnect_alert_every_cycle`: disconnect
threshold 2, end of a fully silent cycle. -/
theorem c3_disconnect_alert_every_cycle_witness :
    2 * (cycle_end cfgB sSilentCycle).1.missing_responses ≥ cfgB.disconnect_time
  ∧ (cycle_end cfgB sSilentCycle).1.relays cfgB.amber_relay = true :=
  ⟨by decide, (c3_disconnect_alert_every_cycle cfgB sSilentCycle (by decide)).1⟩

lemma light_red_eq (cfg : Cfg) (s' : AlarmState) : light cfg s' "red"
    = ({ s' with relays := relayOn (relayOff (relayOff s'.relays cfg.amber_relay) cfg.green_relay) cfg.red_relay }, []) := by
  unfold light; rw [if_pos rfl]

lemma alert_water_eq (cfg : Cfg) (X : AlarmState) : alert_humans cfg X "water"
    = cfg.alert_numbers.map (fun n => Ev.sendSms n (waterAlertText X.times_water_detected)) := by
  unfold alert_humans; rw [if_pos rfl]

/-- A water-positive reply from the sensor whose updated streak is at
or above the confirmation threshold enters the `>= water_time / 2`
branch of `update_status`: red light on, `water` set, and the "water"
alert dispatched to every operator — whether or not the threshold had
already been crossed earlier. -/
lemma parse_water_cross (cfg : Cfg) (s : AlarmState) (m : Msg)
    (hnum : m.number = cfg.phone_number) (htext : m.text = cfg.water_message)
    (hpos : 0 < cfg.water_time)
    (hthr : 2 * (s.times_water_detected + 1) ≥ cfg.water_time) :
    (parse_message cfg s m).1.relays cfg.red_relay = true
  ∧ (parse_message cfg s m).1.water = true
  ∧ ∀ n ∈ cfg.alert_numbers,
      Ev.sendSms n (waterAlertText (s.times_water_detected + 1)) ∈ (parse_message cfg s m).2 := by
  simp only [parse_message]
  rw [if_pos hnum, if_pos htext]
  simp only [update_status]
  rw [if_neg (by dsimp; omega : ¬({ s with missing_loops := 0, missing_responses := 0, awaiting_message := false, times_water_detected := s.times_water_detected + 1 } : AlarmState).times_water_detected = 0)]
  rw [if_neg (by dsimp; omega : ¬(0 < ({ s with missing_loops := 0, missing_responses := 0, awaiting_message := false, times_water_detected := s.times_water_detected + 1 } : AlarmState).times_water_detected ∧ 2 * ({ s with missing_loops := 0, missing_responses := 0, awaiting_message := false, times_water_detected := s.times_water_detected + 1 } : AlarmState).times_water_detected < cfg.water_time))]
  rw [if_pos (by dsimp; omega : 2 * ({ s with missing_loops := 0, missing_responses := 0, awaiting_message := false, times_water_detected := s.times_water_detected + 1 } : AlarmState).times_water_detected ≥ cfg.water_time)]
  rw [light_red_eq, alert_water_eq]
  refine ⟨by simp [relayOn], rfl, ?_⟩
  intro n hn
  simp only [List.mem_append]
  right; left
  right
  exact List.mem_map_of_mem _ hn

/-- A state whose water streak is already well past the bootstrap
threshold (`water_time` 4, so threshold 2 replies). -/
def sPastThreshold : AlarmState :=
  { initState with times_water_detected := 5 }

/-- C1 (amended): the "water" alert is dispatched to every operator on
every water-positive reply from the sensor whose updated streak is at
or above the confirmation threshold — at the crossing and again on
each subsequent water-positive reply — until a water-negative reply
resets the streak; it is not deduplicated to once per crossing. -/
theorem c1_water_alert_every_positive_past_threshold (cfg : Cfg) (s : AlarmState) (m : Msg)
    (hnum : m.number = cfg.phone_number) (htext : m.text = cfg.water_message)
    (hpos : 0 < cfg.water_time)
    (hthr : 2 * (s.times_water_detected + 1) ≥ cfg.water_time) :
    ∀ n ∈ cfg.alert_numbers,
      Ev.sendSms n (waterAlertText (s.times_water_detected + 1)) ∈ (parse_message cfg s m).2 :=
  (parse_water_cross cfg s m hnum htext hpos hthr).2.2

/-- Witness for `c1_water_alert_every_positive_past_threshold`: with
the streak already at 5 (far past the crossing), the next positive
reply dispatches the alert again. -/
theorem c1_water_alert_every_positive_past_threshold_witness :
    2 * (sPastThreshold.times_water_detected + 1) ≥ cfgA.water_time
  ∧ Ev.sendSms "A" (waterAlertText (sPastThreshold.times_water_detected + 1))
      ∈ (parse_message cfgA sPastThreshold (Msg.mk "T" "1")).2 :=
  ⟨by decide,
   c1_water_alert_every_positive_past_threshold cfgA sPastThreshold (Msg.mk "T" "1")
     rfl rfl (by decide) (by decide) "A" (by decide)⟩

/-- A water-positive reply from the sensor whose updated streak is
still strictly below the confirmation threshold takes the middle
branch of `update_status`: counters reset, streak bumped, and only the
progress line printed (no light change, no alert). -/
lemma parse_water_mid (cfg : Cfg) (s : AlarmState) (m : Msg)
    (hnum : m.number = cfg.phone_number) (htext : m.text = cfg.water_message)
    (hresp : ¬(2 * s.missing_responses ≥ cfg.disconnect_time))
    (hjpos : 0 < s.times_water_detected + 1)
    (hW : 2 * (s.times_water_detected + 1) < cfg.water_time) :
    parse_message cfg s m
      = ({ s with missing_loops := 0, missing_responses := 0, awaiting_message := false, times_water_detected := s.times_water_detected + 1 },
         [Ev.print ("Water has been detected for " ++ toString ((s.times_water_detected + 1) * 2)
            ++ "m. Will alert others at " ++ toString cfg.water_time ++ "m.")]) := by
  simp only [parse_message]
  rw [if_pos hnum, if_neg hresp, if_pos htext]
  simp only [update_status]
  rw [if_neg (by dsimp; omega : ¬({ s with missing_loops := 0, missing_responses := 0, awaiting_message := false, times_water_detected := s.times_water_detected + 1 } : AlarmState).times_water_detected = 0)]
  rw [if_pos (show 0 < ({ s with missing_loops := 0, missing_responses := 0, awaiting_message := false, times_water_detected := s.times_water_detected + 1 } : AlarmState).times_water_detected ∧ 2 * ({ s with missing_loops := 0, missing_responses := 0, awaiting_message := false, times_water_detected := s.times_water_detected + 1 } : AlarmState).times_water_detected < cfg.water_time from ⟨hjpos, hW⟩)]
  simp


/-- As long as the streak stays strictly below the threshold,
`k` consecutive water-positive replies from the freshly initialized
state only bump `times_water_detected` to `k` and send nothing. -/
lemma run_pos_below (cfg : Cfg) (hd : 0 < cfg.disconnect_time) :
    ∀ k : Nat, 2 * (k : Int) < cfg.water_time →
      (run_pos cfg k).1 = { initState with times_water_detected := (k : Int) }
      ∧ ∀ e ∈ (run_pos cfg k).2, isSend e = false := by
  intro k
  induction k with
  | zero =>
    intro _
    constructor
    · show initState = _
      simp [initState]
    · intro e he
      simp [run_pos] at he
  | succ n ih =>
    intro h
    have hn : 2 * (n : Int) < cfg.water_time := by push_cast at h ⊢; omega
    obtain ⟨hstate, htrace⟩ := ih hn
    have hstep := parse_water_mid cfg (run_pos cfg n).1 (posMsg cfg) rfl rfl
        (by rw [hstate]; simp [initState]; omega)
        (by rw [hstate]; simp [initState])
        (by rw [hstate]; simp [initState]; push_cast at h ⊢; omega)
    constructor
    · show (parse_message cfg (run_pos cfg n).1 (posMsg cfg)).1 = _
      rw [hstep, hstate]
      simp [initState]
    · intro e he
      rcases List.mem_append.mp he with h1 | h1
      · exact htrace e h1
      · rw [hstep] at h1
        simp at h1
        rw [h1]
        rfl


/-- C5: with water threshold `2*t` (in the source's 2-units-per-reply
granularity, i.e. `t` replies): after exactly `t` consecutive
water-positive replies from the target number the indicator
transitions to WATER (red relay on, `water` set) and a "water" alert
is dispatched to every operator; after only `t - 1` such replies the
red relay is still off, `water` is still false, and no SMS at all has
been sent. -/
theorem c5_water_threshold (cfg : Cfg) (t : Nat) (ht : 1 ≤ t)
    (hW : cfg.water_time = 2 * (t : Int)) (hd : 0 < cfg.disconnect_time) :
    ((run_pos cfg t).1.relays cfg.red_relay = true
      ∧ (run_pos cfg t).1.water = true
      ∧ ∀ n ∈ cfg.alert_numbers,
          Ev.sendSms n (waterAlertText (t : Int)) ∈ (run_pos cfg t).2)
  ∧ ((run_pos cfg (t - 1)).1.relays cfg.red_relay = false
      ∧ (run_pos cfg (t - 1)).1.water = false
      ∧ ∀ e ∈ (run_pos cfg (t - 1)).2, isSend e = false) := by
  obtain ⟨u, rfl⟩ : ∃ u, t = u + 1 := ⟨t - 1, by omega⟩
  simp only [Nat.add_sub_cancel]
  obtain ⟨hstate, htrace⟩ := run_pos_below cfg hd u (by rw [hW]; push_cast; omega)
  have hcross := parse_water_cross cfg (run_pos cfg u).1 (posMsg cfg) rfl rfl
      (by rw [hW]; push_cast; omega)
      (by rw [hstate]; simp [initState]; rw [hW]; push_cast; omega)
  have harg : (run_pos cfg u).1.times_water_detected + 1 = ((u + 1 : Nat) : Int) := by
    rw [hstate]; simp [initState]
  refine ⟨⟨?_, ?_, ?_⟩, ?_, ?_, htrace⟩
  · exact hcross.1
  · exact hcross.2.1
  · intro n hn
    have hmem := hcross.2.2 n hn
    rw [harg] at hmem
    show Ev.sendSms n (waterAlertText ((u + 1 : Nat) : Int))
        ∈ (run_pos cfg u).2 ++ (parse_message cfg (run_pos cfg u).1 (posMsg cfg)).2
    exact List.mem_append_right _ hmem
  · rw [hstate]; simp [initState]
  · rw [hstate]; simp [initState]

/-- Witness for `c5_water_threshold` at the bootstrap configuration
(`water_time` 4, so 2 replies). -/
theorem c5_water_threshold_witness :
    cfgA.water_time = 2 * ((2 : Nat) : Int)
  ∧ (run_pos cfgA 2).1.water = true
  ∧ (run_pos cfgA 1).1.water = false :=
  ⟨by decide,
   (c5_water_threshold cfgA 2 (by decide) (by decide) (by decide)).1.2.1,
   (c5_water_threshold cfgA 2 (by decide) (by decide) (by decide)).2.2.1⟩

/-- A state awaiting a reply mid-cycle. -/
def sAwaiting : AlarmState :=
  { initState with awaiting_message := true, missing_loops := 3 }

/-- C9: on a tick whose drain returned only messages from
unrecognized senders (non-empty drain), the whole state — in
particular `missing_loops` — is unchanged even though a reply is
still awaited; and `missing_loops` is incremented (by one) exactly
when the drain returned zero messages while a reply was awaited. -/
theorem c9_increment_iff_empty_awaited (cfg : Cfg) (s : AlarmState) (msgs : List Msg)
    (h0 : 0 ≤ s.missing_loops) :
    ((msgs ≠ [] ∧ ∀ m ∈ msgs, m.number ≠ cfg.phone_number) →
        (check_for_answer cfg s msgs).1 = s)
  ∧ ((check_for_answer cfg s msgs).1.missing_loops = s.missing_loops + 1
        ↔ (msgs = [] ∧ s.awaiting_message = true)) := by
  constructor
  · rintro ⟨hne, hall⟩
    simp only [check_for_answer]
    rw [if_neg (by
      rintro ⟨hl, _⟩
      exact hne (List.length_eq_zero.mp hl))]
    exact parse_all_unknown cfg msgs s hall
  · constructor
    · intro h
      by_cases hm : msgs = []
      · subst hm
        by_cases ha : s.awaiting_message = true
        · exact ⟨rfl, ha⟩
        · exfalso
          simp only [check_for_answer] at h
          rw [if_neg (by rintro ⟨_, hx⟩; exact ha hx)] at h
          simp only [parse_all] at h
          omega
      · exfalso
        simp only [check_for_answer] at h
        rw [if_neg (by rintro ⟨hl, _⟩; exact hm (List.length_eq_zero.mp hl))] at h
        rcases parse_all_missing_loops cfg msgs s with hh | hh <;> rw [hh] at h <;> omega
    · rintro ⟨hm, ha⟩
      subst hm
      simp only [check_for_answer]
      rw [if_pos ⟨rfl, ha⟩]
      simp only [parse_all]

/-- Witness for `c9_increment_iff_empty_awaited`: an unknown-sender
drain leaves the awaiting state untouched; an empty drain while
awaiting increments `missing_loops`. -/
theorem c9_increment_iff_empty_awaited_witness :
    0 ≤ sAwaiting.missing_loops
  ∧ (check_for_answer cfgA sAwaiting [Msg.mk "X" "1"]).1 = sAwaiting
  ∧ (check_for_answer cfgA sAwaiting []).1.missing_loops = sAwaiting.missing_loops + 1 :=
  ⟨by decide,
   (c9_increment_iff_empty_awaited cfgA sAwaiting [Msg.mk "X" "1"] (by decide)).1
     ⟨by decide, by decide⟩,
   (c9_increment_iff_empty_awaited cfgA sAwaiting [] (by decide)).2.mpr ⟨rfl, rfl⟩⟩

lemma check_loops_bound (cfg : Cfg) (s : AlarmState) (messages : List Msg)
    (h0 : 0 ≤ s.missing_loops) :
    0 ≤ (check_for_answer cfg s messages).1.missing_loops
  ∧ (check_for_answer cfg s messages).1.missing_loops ≤ s.missing_loops + 1 := by
  simp only [check_for_answer]
  by_cases hc : messages.length = 0 ∧ s.awaiting_message = true
  · rw [if_pos hc]
    rcases parse_all_missing_loops cfg messages
        { s with missing_loops := s.missing_loops + 1 } with hh | hh <;>
      rw [hh] <;> (try dsimp only) <;> omega
  · rw [if_neg hc]
    rcases parse_all_missing_loops cfg messages s with hh | hh <;> rw [hh] <;> omega

/-- Tick 0 first resets `missing_loops` via `request_status`, so ends
at most at 1. -/
lemma tick_zero_loops (cfg : Cfg) (s : AlarmState) (d : List Msg) :
    0 ≤ (tick cfg s 0 d).1.missing_loops ∧ (tick cfg s 0 d).1.missing_loops ≤ 1 := by
  have hl : (request_status cfg s).1.missing_loops = 0 := rfl
  have h := check_loops_bound cfg (request_status cfg s).1 d (by rw [hl])
  rw [hl] at h
  have h2 : (check_for_answer cfg (request_status cfg s).1 d).1.missing_loops ≤ 1 := by
    have := h.2; omega
  exact ⟨h.1, h2⟩

/-- A later tick adds at most 1. -/
lemma tick_succ_loops (cfg : Cfg) (s : AlarmState) (d : List Msg) (i : Nat)
    (hi : ¬ i = 0) (h0 : 0 ≤ s.missing_loops) :
    0 ≤ (tick cfg s i d).1.missing_loops
  ∧ (tick cfg s i d).1.missing_loops ≤ s.missing_loops + 1 := by
  simp only [tick]
  rw [if_neg hi]
  exact check_loops_bound cfg s d h0

/-- After `k >= 1` ticks of an outer cycle (whatever the entry state:
tick 0 resets the counter), `missing_loops` lies in `[0, k]`. -/
lemma run_ticks_loops (cfg : Cfg) (s : AlarmState) (f : Nat → List Msg) :
    ∀ k : Nat, 1 ≤ k →
      0 ≤ (run_ticks cfg s f k).1.missing_loops
    ∧ (run_ticks cfg s f k).1.missing_loops ≤ (k : Int) := by
  intro k
  induction k with
  | zero => intro hk; exact absurd hk (by omega)
  | succ n ih =>
    intro _
    rcases Nat.eq_zero_or_pos n with h0 | hpos
    · subst h0
      simp only [run_ticks]
      have h := tick_zero_loops cfg s (f 0)
      exact ⟨h.1, by have := h.2; push_cast; omega⟩
    · have hprev := ih hpos
      simp only [run_ticks]
      have hstep := tick_succ_loops cfg (run_ticks cfg s f n).1 (f n) n (by omega) hprev.1
      refine ⟨hstep.1, ?_⟩
      have h1 := hstep.2
      have h2 := hprev.2
      push_cast
      omega

/-- The end-of-cycle checks never touch `missing_loops`. -/
lemma cycle_end_loops (cfg : Cfg) (s : AlarmState) :
    (cycle_end cfg s).1.missing_loops = s.missing_loops := by
  simp only [cycle_end]
  split_ifs <;> simp

/-- At every outer-cycle boundary `missing_loops` lies in `[0, 12]`. -/
lemma boundary_loops (cfg : Cfg) (s : AlarmState) (hb : Boundary cfg s) :
    0 ≤ s.missing_loops ∧ s.missing_loops ≤ 12 := by
  induction hb with
  | init => constructor <;> simp [initState]
  | cycle s f hb ih =>
    simp only [outer_cycle]
    rw [cycle_end_loops]
    have h := run_ticks_loops cfg s f 12 (by omega)
    exact ⟨h.1, by have := h.2; omega⟩

/-- C7: in every configuration, `missing_loops` stays in
`[0, cycle_length]` (= 12) at every state reachable in the main loop;
it is reset to 0 when the request is sent at tick 0 and on any reply
from the sensor number, and one reply check increments it by at most
one. -/
theorem c7_missing_loops_in_range (cfg : Cfg) :
    (∀ t : AlarmState, ReachableMain cfg t →
        0 ≤ t.missing_loops ∧ t.missing_loops ≤ 12)
  ∧ (∀ s : AlarmState, (request_status cfg s).1.missing_loops = 0)
  ∧ (∀ (s : AlarmState) (m : Msg), m.number = cfg.phone_number →
        (parse_message cfg s m).1.missing_loops = 0)
  ∧ (∀ (s : AlarmState) (msgs : List Msg), 0 ≤ s.missing_loops →
        (check_for_answer cfg s msgs).1.missing_loops ≤ s.missing_loops + 1) := by
  refine ⟨?_, fun s => rfl,
    fun s m h => parse_known_missing_loops cfg s m h,
    fun s msgs h0 => (check_loops_bound cfg s msgs h0).2⟩
  rintro t ⟨s, f, k, hb, hk, rfl⟩
  rcases Nat.eq_zero_or_pos k with h0 | hpos
  · subst h0
    exact boundary_loops cfg s hb
  · have h := run_ticks_loops cfg s f k hpos
    exact ⟨h.1, by have := h.2; omega⟩

/-- Witness for `c7_missing_loops_in_range` at the freshly initialized
state, which is reachable as the boundary before the first cycle. -/
theorem c7_missing_loops_in_range_witness :
    (0 ≤ initState.missing_loops ∧ initState.missing_loops ≤ 12)
  ∧ (request_status cfgA initState).1.missing_loops = 0
  ∧ (parse_message cfgA sAwaiting (Msg.mk "T" "0")).1.missing_loops = 0
  ∧ (check_for_answer cfgA initState []).1.missing_loops ≤ initState.missing_loops + 1 :=
  ⟨(c7_missing_loops_in_range cfgA).1 initState
      ⟨initState, fun _ => [], 0, Boundary.init, by omega, rfl⟩,
   (c7_missing_loops_in_range cfgA).2.1 initState,
   (c7_missing_loops_in_range cfgA).2.2.1 sAwaiting (Msg.mk "T" "0") rfl,
   (c7_missing_loops_in_range cfgA).2.2.2 initState [] (by decide)⟩
